import Mathlib

/-!
Verification of the weight-loss tracker's aggregation core.

The definitions below are shallow embeddings of the TypeScript/SQL source:
  * `WeightEntryRow`, `ProfileRow`, `GroupMemberRow`, `Store` — the relevant
    tables of the data model.
  * `dashboardStoredPercentage` / `newEntryStoredPercentage` — the two
    weight-entry submission paths (`WeightEntry.handleSubmit` in
    `BMIWidget.tsx`, and the newer `WeightEntry` component that queries the
    user's first entry).
  * `get_group_weight_loss` — the settlement SQL function from
    `send-group-specific-reminders/index.ts` (migration `summer_sky`).
  * `memberProgressData` / `teamProgressOf` — the member and team
    aggregators of `GroupProgress.tsx` (`fetchGroupProgress`).
  * `settlementStep` — the one-time settlement cache write in
    `fetchGroupProgress`.
  * `get_users_needing_reminders` — the reminder eligibility SQL function
    from migration `violet_breeze`.

Numbers are modelled as exact rationals (`ℚ`); timestamps as integers.
-/

namespace WeightLoss

/-- A row of the `weight_entries` table: owning user, weight (lbs),
percentage change stored at insert time, privacy flag, creation time. -/
structure WeightEntryRow where
  user_id : Nat
  weight : ℚ
  percentage_change : ℚ
  is_private : Bool
  created_at : Int
deriving Repr, DecidableEq

/-- A row of the `profiles` table (fields used by the aggregation core). -/
structure ProfileRow where
  id : Nat
  email : String
  display_name : String
deriving Repr, DecidableEq

/-- A row of the `group_members` table: membership of a user in a group,
optionally assigned to a team. -/
structure GroupMemberRow where
  group_id : Nat
  user_id : Nat
  team_id : Option Nat
deriving Repr, DecidableEq

/-- A row of the `reminder_logs` table. -/
structure ReminderLogRow where
  user_id : Nat
  group_id : Nat
  reminder_type : String
  sent_at : Int
deriving Repr, DecidableEq

/-- A row of the `groups` table (fields used by the aggregation core). -/
structure GroupRow where
  id : Nat
  start_date : Option Int
  end_date : Option Int
  total_weight_lost : Option ℚ
  is_team_challenge : Bool
deriving Repr, DecidableEq

/-- The external relational store, as read by the aggregators. -/
structure Store where
  profiles : List ProfileRow
  group_members : List GroupMemberRow
  weight_entries : List WeightEntryRow
  reminder_logs : List ReminderLogRow
  groups : List GroupRow
deriving Repr, DecidableEq

/-! ## Percentage-change computation at entry creation -/

/-- `convertToLbs` from the weight-entry components:
`unit === 'kg' ? weight * 2.20462 : weight`. `true` means kg. -/
def convertToLbs (w : ℚ) (isKg : Bool) : ℚ :=
  if isKg then w * (220462 / 100000) else w

/-- The `initialWeight` prop passed by `Dashboard.tsx`:
`userProfile?.initial_weight || 150` (JS `||`, so `0` also falls back). -/
def initialWeightProp (initial_weight : Option ℚ) : ℚ :=
  match initial_weight with
  | none => 150
  | some x => if x = 0 then 150 else x

/-- `WeightEntry.handleSubmit` in `BMIWidget.tsx` (the Dashboard path):
`percentageChange = ((currentWeightInLbs - initialWeight) / initialWeight) * 100`. -/
def dashboardStoredPercentage (initialWeight w : ℚ) : ℚ :=
  (w - initialWeight) / initialWeight * 100

/-- `ORDER BY created_at ASC LIMIT 1` over a list of entries: the earliest
entry, taking the first in list order among ties. -/
def firstEntry : List WeightEntryRow → Option WeightEntryRow :=
  List.foldl
    (fun acc e =>
      match acc with
      | none => some e
      | some a => if e.created_at < a.created_at then some e else acc)
    none

/-- `ORDER BY created_at DESC LIMIT 1` over a list of entries: the latest
entry, taking the first in list order among ties. -/
def lastEntry : List WeightEntryRow → Option WeightEntryRow :=
  List.foldl
    (fun acc e =>
      match acc with
      | none => some e
      | some a => if a.created_at < e.created_at then some e else acc)
    none

/-- Baseline chosen by the newer `WeightEntry.handleSubmit` (the component
that queries the user's first entry):
`let baselineWeight = firstEntry?.weight || currentWeightInLbs`,
overridden to the current weight when no first entry exists. -/
def newEntryBaseline (history : List WeightEntryRow) (current : ℚ) : ℚ :=
  match firstEntry history with
  | none => current
  | some fe => if fe.weight = 0 then current else fe.weight

/-- The percentage stored by the newer `WeightEntry.handleSubmit`:
`((currentWeightInLbs - baselineWeight) / baselineWeight) * 100`. -/
def newEntryStoredPercentage (history : List WeightEntryRow) (w : ℚ) : ℚ :=
  (w - newEntryBaseline history w) / newEntryBaseline history w * 100

theorem initialWeightProp_ne_zero (p : Option ℚ) : initialWeightProp p ≠ 0 := by
  rcases p with _ | x
  · norm_num [initialWeightProp]
  · by_cases h : x = 0 <;> simp [initialWeightProp, h]

/-! ## Group settlement: the `get_group_weight_loss` SQL function -/

/-- PostgreSQL `ROUND(x, 2)` on `numeric`: round half away from zero to two
decimal places. -/
def round2 (q : ℚ) : ℚ :=
  (if 0 ≤ q then (⌊q * 100 + 1 / 2⌋ : ℚ) else -(⌊-(q * 100) + 1 / 2⌋ : ℚ)) / 100

/-- One element of the settlement result (`WeightLossDetails` CTE /
`WeightLossDetail` interface in `groupUtils.ts`). -/
structure WeightLossDetail where
  email : String
  display_name : String
  first_weight : ℚ
  last_weight : ℚ
  weight_loss : ℚ
  weight_loss_percentage : ℚ
deriving Repr, DecidableEq

/-- The settlement result (`GroupWeightLossResult` in `groupUtils.ts`). -/
structure GroupWeightLossResult where
  members : List WeightLossDetail
  total_weight_lost : ℚ
deriving Repr, DecidableEq

/-- `SELECT gm.user_id FROM group_members gm WHERE gm.group_id = group_id`. -/
def groupUserIds (st : Store) (gid : Nat) : List Nat :=
  (st.group_members.filter (fun gm => gm.group_id == gid)).map (·.user_id)

/-- All weight entries of one user (no privacy or date filter). -/
def userEntries (st : Store) (uid : Nat) : List WeightEntryRow :=
  st.weight_entries.filter (fun e => e.user_id == uid)

/-- `JOIN profiles p ON uwe.user_id = p.id`: profile lookup by id. -/
def findProfile (st : Store) (uid : Nat) : Option ProfileRow :=
  st.profiles.find? (fun p => p.id == uid)

/-- One row of the `WeightLossDetails` CTE of `get_group_weight_loss`: the
first- and last-recorded weights over the member's entire entry history,
kept only when `first_weight > last_weight`, with the rounded loss
columns. -/
def detailFor (st : Store) (uid : Nat) : Option WeightLossDetail :=
  match firstEntry (userEntries st uid), lastEntry (userEntries st uid),
      findProfile st uid with
  | some fe, some le, some p =>
    if le.weight < fe.weight then
      some { email := p.email
             display_name := p.display_name
             first_weight := fe.weight
             last_weight := le.weight
             weight_loss := round2 (fe.weight - le.weight)
             weight_loss_percentage :=
               round2 ((fe.weight - le.weight) / fe.weight * 100) }
    else none
  | _, _, _ => none

/-- The `WeightLossDetails` CTE of `get_group_weight_loss`, one row per
group member with at least one weight entry and a net loss. -/
def weightLossDetails (st : Store) (gid : Nat) : List WeightLossDetail :=
  (groupUserIds st gid).filterMap (detailFor st)

/-- The `get_group_weight_loss` SQL function: the detail rows ordered by
`weight_loss DESC` (`json_agg ... ORDER BY weight_loss DESC`), and
`total_weight_lost = COALESCE(ROUND(SUM(weight_loss), 2), 0)`. -/
def get_group_weight_loss (st : Store) (gid : Nat) : GroupWeightLossResult :=
  let details := weightLossDetails st gid
  { members := details.insertionSort (fun a b => b.weight_loss ≤ a.weight_loss)
    total_weight_lost :=
      match details with
      | [] => 0
      | _ => round2 ((details.map (·.weight_loss)).sum) }

/-! ## Member Progress Aggregator (`fetchGroupProgress` in `GroupProgress.tsx`) -/

/-- The filter applied by the weight-entries query of `fetchGroupProgress`:
`.eq('is_private', false)` always, and `.gte('created_at', start_date)`
when the group has a start date. -/
def qualifiesB (startDate : Option Int) (e : WeightEntryRow) : Bool :=
  !e.is_private &&
    (match startDate with
     | some sd => decide (sd ≤ e.created_at)
     | none => true)

/-- The weight-entries query of `fetchGroupProgress`: entries of the group's
members, non-private, within the start-date window, ordered by
`created_at` ascending. -/
def fetchedEntries (startDate : Option Int) (memberIds : List Nat)
    (entries : List WeightEntryRow) : List WeightEntryRow :=
  (entries.filter (fun e => memberIds.contains e.user_id && qualifiesB startDate e)).insertionSort
    (fun a b => a.created_at ≤ b.created_at)

/-- One member row returned by the group-members query (`user_id`, `team_id`,
joined `profiles.display_name`). -/
structure MemberInfo where
  user_id : Nat
  team_id : Option Nat
  display_name : String
deriving Repr, DecidableEq

/-- A per-member progress summary (`MemberProgress` in `GroupProgress.tsx`). -/
structure MemberProgress where
  user_id : Nat
  display_name : String
  team_id : Option Nat
  entries : List WeightEntryRow
  latest_change : ℚ
  total_entries : Nat
  best_change : ℚ
  days_active : Int
deriving Repr, DecidableEq

/-- `userEntries[userEntries.length - 1].percentage_change`, or `0` when the
member has no qualifying entries. -/
def latestChange (l : List WeightEntryRow) : ℚ :=
  match l.getLast? with
  | none => 0
  | some e => e.percentage_change

/-- `Math.min(...userEntries.map(e => e.percentage_change))`, or `0` when
the member has no qualifying entries. -/
def bestChange (l : List WeightEntryRow) : ℚ :=
  match l.map (·.percentage_change) with
  | [] => 0
  | x :: xs => xs.foldl min x

/-- `days_active`: `Math.ceil` of the elapsed time from the group's start
date (or, absent one, the member's first qualifying entry) to now, in days;
`0` when neither reference point exists. Time unit: milliseconds. -/
def daysActive (startDate : Option Int) (now : Int)
    (userEntries : List WeightEntryRow) : Int :=
  let ref : Option Int :=
    match startDate with
    | some sd => some sd
    | none => (userEntries.head?).map (·.created_at)
  match ref with
  | none => 0
  | some t => ⌈((now - t : ℤ) : ℚ) / 86400000⌉

/-- The per-member stats block of `fetchGroupProgress`, computed from one
member's qualifying entries. -/
def memberProgressOf (startDate : Option Int) (now : Int)
    (memberIds : List Nat) (entries : List WeightEntryRow)
    (m : MemberInfo) : MemberProgress :=
  let ue := (fetchedEntries startDate memberIds entries).filter
    (fun e => e.user_id == m.user_id)
  { user_id := m.user_id
    display_name := m.display_name
    team_id := m.team_id
    entries := ue
    latest_change := latestChange ue
    total_entries := ue.length
    best_change := bestChange ue
    days_active := daysActive startDate now ue }

/-- The Member Progress Aggregator: per-member stats, sorted ascending by
`latest_change` (`progressData.sort((a, b) => a.latest_change - b.latest_change)`). -/
def memberProgressData (startDate : Option Int) (now : Int)
    (members : List MemberInfo) (entries : List WeightEntryRow) :
    List MemberProgress :=
  ((members.map
      (memberProgressOf startDate now (members.map (·.user_id)) entries)).insertionSort
    (fun a b => a.latest_change ≤ b.latest_change))

/-! ## Team Progress Aggregator -/

/-- A row of the `teams` table (fields used by the aggregator). -/
structure TeamRow where
  id : Nat
  name : String
  color : String
deriving Repr, DecidableEq

/-- A per-team summary (`TeamProgress` in `GroupProgress.tsx`). Note that it
carries the full per-member breakdown in `members`. -/
structure TeamProgress where
  team_id : Nat
  team_name : String
  team_color : String
  member_count : Nat
  average_change : ℚ
  total_entries : Nat
  best_change : ℚ
  members : List MemberProgress
deriving Repr, DecidableEq

/-- The per-team stats block of `fetchGroupProgress` (`teamsData`): all-zero
stats with an empty member list for a team with no members, otherwise mean
`latest_change`, summed entry counts, minimum `best_change`, and the full
member breakdown. -/
def teamProgressOf (t : TeamRow) (progressData : List MemberProgress) :
    TeamProgress :=
  let teamMembers := progressData.filter (fun m => m.team_id == some t.id)
  match teamMembers with
  | [] =>
    { team_id := t.id, team_name := t.name, team_color := t.color
      member_count := 0, average_change := 0, total_entries := 0
      best_change := 0, members := [] }
  | x :: xs =>
    { team_id := t.id, team_name := t.name, team_color := t.color
      member_count := teamMembers.length
      average_change :=
        ((teamMembers.map (·.latest_change)).sum) / (teamMembers.length : ℚ)
      total_entries := (teamMembers.map (·.total_entries)).sum
      best_change := (xs.map (·.best_change)).foldl min x.best_change
      members := teamMembers }

/-- The Team Progress Aggregator: per-team stats sorted ascending by
`average_change`. -/
def teamsData (teams : List TeamRow) (progressData : List MemberProgress) :
    List TeamProgress :=
  ((teams.map (teamProgressOf · progressData)).insertionSort
    (fun a b => a.average_change ≤ b.average_change))

/-- The render-time visibility check (`GroupProgress.tsx`):
`team.members.some(m => m.user_id === user?.id) || userTeamId === team.team_id`. -/
def canViewMembers (team : TeamProgress) (callerId : Nat)
    (userTeamId : Option Nat) : Bool :=
  team.members.any (fun m => m.user_id == callerId) ||
    userTeamId == some team.team_id

/-! ## Settlement cache write and error handling -/

/-- `isGroupInactive` from `groupUtils.ts`: an end date exists and lies
strictly in the past. -/
def isGroupInactive (endDate : Option Int) (now : Int) : Bool :=
  match endDate with
  | none => false
  | some e => e < now

/-- `calculateGroupWeightLoss` from `groupUtils.ts`, as a function of the
outcome of the `get_group_weight_loss` RPC: on error the catch block
returns `{ members: [], total_weight_lost: 0 }`; on a null payload the
`data || ...` default applies; otherwise the payload is returned. -/
def calculateGroupWeightLoss
    (rpc : Except String (Option GroupWeightLossResult)) :
    GroupWeightLossResult :=
  match rpc with
  | .error _ => { members := [], total_weight_lost := 0 }
  | .ok none => { members := [], total_weight_lost := 0 }
  | .ok (some r) => r

/-- The settlement block of `fetchGroupProgress`: when the group is
inactive, recompute the settlement, and write the total back only when the
stored `total_weight_lost` is null and the computed total is positive.
Returns the stored total after the step and whether a write occurred. -/
def settlementStep (g : GroupRow) (now : Int) (st : Store) :
    Option ℚ × Bool :=
  if isGroupInactive g.end_date now then
    let res := get_group_weight_loss st g.id
    if g.total_weight_lost == none && decide (0 < res.total_weight_lost) then
      (some res.total_weight_lost, true)
    else
      (g.total_weight_lost, false)
  else
    (g.total_weight_lost, false)

/-! ## Reminder Eligibility Selector (`get_users_needing_reminders`) -/

/-- `MAX(we.created_at)` over all weight entries of a user
(`user_last_entries` CTE; no privacy or date filter). -/
def lastEntryDate (st : Store) (uid : Nat) : Option Int :=
  ((userEntries st uid).map (·.created_at)).max?

/-- `MAX(sent_at)` over the user's `weight_logging` reminder logs for the
group (`user_last_reminders` CTE, which filters
`reminder_type = 'weight_logging'`). -/
def lastReminderSent (st : Store) (uid gid : Nat) : Option Int :=
  ((st.reminder_logs.filter (fun r =>
      r.reminder_type == "weight_logging" && r.user_id == uid &&
        r.group_id == gid)).map (·.sent_at)).max?

/-- Modelled from the spec: the most recent reminder log for a (user, group)
pair, over all reminder logs regardless of `reminder_type` (the spec's
"most recent reminder log for that (user, group) pair"). -/
def mostRecentReminderLog (st : Store) (uid gid : Nat) : Option Int :=
  ((st.reminder_logs.filter (fun r =>
      r.user_id == uid && r.group_id == gid)).map (·.sent_at)).max?

/-- Seconds in five days (`interval '5 days'`). -/
def fiveDays : Int := 5 * 86400

/-- Seconds in four days (`interval '4 days'`). -/
def fourDays : Int := 4 * 86400

/-- `groups` lookup by id (`JOIN groups g ON ule.group_id = g.id`). -/
def findGroup (st : Store) (gid : Nat) : Option GroupRow :=
  st.groups.find? (fun g => g.id == gid)

/-- The WHERE clause of `get_users_needing_reminders` for one
(user, group) membership pair. -/
def needsReminder (now : Int) (st : Store) (uid gid : Nat) : Bool :=
  match findGroup st gid with
  | none => false
  | some g =>
    (match lastEntryDate st uid with
     | none => true
     | some d => decide (d < now - fiveDays)) &&
    (match lastReminderSent st uid gid with
     | none => true
     | some d => decide (d < now - fourDays)) &&
    (match g.start_date with
     | none => true
     | some s => decide (s ≤ now)) &&
    (match g.end_date with
     | none => true
     | some e => decide (now ≤ e))

/-- `get_users_needing_reminders`: the (user, group) membership pairs whose
joined profile and group rows exist and which satisfy the WHERE clause. -/
def get_users_needing_reminders (now : Int) (st : Store) :
    List (Nat × Nat) :=
  ((st.group_members.map (fun gm => (gm.user_id, gm.group_id))).dedup).filter
    (fun p =>
      (findProfile st p.1).isSome && (findGroup st p.2).isSome &&
        needsReminder now st p.1 p.2)

/-! ## Claim C1 -/

/-- C1 counterexample: on the weight-entry path of `BMIWidget.tsx` /
`Dashboard.tsx`, a user whose profile records `initial_weight = 150` and who
has no prior weight entries logs 140 lbs; the stored `percentage_change` is
`-20/3`, not the `0` the claim requires for a first entry (the baseline
used is the profile's initial weight, not the first entry's weight). -/
theorem c1_counterexample :
    dashboardStoredPercentage (initialWeightProp (some 150)) 140 = -20 / 3 ∧
      dashboardStoredPercentage (initialWeightProp (some 150)) 140 ≠ 0 := by
  constructor <;> norm_num [dashboardStoredPercentage, initialWeightProp]

/-- C1 (amended): the Dashboard path (`WeightEntry.handleSubmit` in
`BMIWidget.tsx`) computes `percentage_change` against the profile's
`initial_weight` (150 when unset), so an entry's stored percentage is `0`
exactly when the logged weight equals that baseline — a first entry is not
always `0`. The newer `WeightEntry` component, which queries the user's
first-ever entry, does satisfy the original rule: with no prior entry the
stored percentage is exactly `0`, and otherwise it equals
`(w - baseline) / baseline * 100` for `baseline` the first entry's weight. -/
theorem c1_percentage_change_baseline (p : Option ℚ) (w : ℚ)
    (hist : List WeightEntryRow) (fe : WeightEntryRow) :
    (dashboardStoredPercentage (initialWeightProp p) w = 0 ↔
        w = initialWeightProp p) ∧
      newEntryStoredPercentage [] w = 0 ∧
      (firstEntry hist = some fe → fe.weight ≠ 0 →
        newEntryStoredPercentage hist w =
          (w - fe.weight) / fe.weight * 100) := by
  refine ⟨?_, ?_, ?_⟩
  · have hi := initialWeightProp_ne_zero p
    simp [dashboardStoredPercentage, mul_eq_zero, div_eq_zero_iff,
      sub_eq_zero, hi]
  · simp [newEntryStoredPercentage, newEntryBaseline, firstEntry]
  · intro h hw
    simp [newEntryStoredPercentage, newEntryBaseline, h, hw]

/-- C1 witness: concrete instances of the amended statement — a user whose
first entry weighed 150 lbs now logs 140 lbs and the newer path stores
`(140 - 150) / 150 * 100`; on the Dashboard path logging exactly the
profile's initial weight stores `0`. -/
theorem c1_percentage_change_baseline_witness :
    newEntryStoredPercentage [⟨1, 150, 0, false, 10⟩] 140 =
        (140 - 150) / 150 * 100 ∧
      dashboardStoredPercentage (initialWeightProp (some 150)) 150 = 0 :=
  ⟨(c1_percentage_change_baseline (some 150) 140 [⟨1, 150, 0, false, 10⟩]
        ⟨1, 150, 0, false, 10⟩).2.2 (by decide) (by decide),
    (c1_percentage_change_baseline (some 150) 150 []
        ⟨1, 150, 0, false, 10⟩).1.mpr (by decide)⟩

/-! ## Claim C2 -/

theorem qualifiesB_spec (sd : Option Int) (e : WeightEntryRow)
    (h : qualifiesB sd e = true) :
    e.is_private = false ∧ ∀ d, sd = some d → d ≤ e.created_at := by
  unfold qualifiesB at h
  rw [Bool.and_eq_true] at h
  refine ⟨by simpa using h.1, ?_⟩
  intro d hd
  subst hd
  simpa using h.2

/-- C2: the Member Progress Aggregator computes every member's statistics
only from qualifying entries — every entry underlying a member's stats has
`is_private = false` and, when the group defines a start date, a creation
time no earlier than it; and the member's `total_entries`, `latest_change`
and `best_change` are functions of exactly those entries. -/
theorem c2_member_aggregation_qualifying_only (sd : Option Int) (now : Int)
    (members : List MemberInfo) (entries : List WeightEntryRow)
    (m : MemberProgress) (e : WeightEntryRow)
    (hm : m ∈ memberProgressData sd now members entries)
    (he : e ∈ m.entries) :
    (e.is_private = false ∧ ∀ d, sd = some d → d ≤ e.created_at) ∧
      m.total_entries = m.entries.length ∧
      m.latest_change = latestChange m.entries ∧
      m.best_change = bestChange m.entries := by
  unfold memberProgressData at hm
  rw [(List.perm_insertionSort _ _).mem_iff] at hm
  obtain ⟨mi, hmi, rfl⟩ := List.mem_map.1 hm
  refine ⟨?_, rfl, rfl, rfl⟩
  simp only [memberProgressOf] at he
  have he' := (List.mem_filter.1 he).1
  unfold fetchedEntries at he'
  rw [(List.perm_insertionSort _ _).mem_iff] at he'
  have hq := (List.mem_filter.1 he').2
  rw [Bool.and_eq_true] at hq
  exact qualifiesB_spec sd e hq.2

/-- C2 witness: a group with start date 10; the member's private entry and
pre-window entry are excluded, the remaining entry is non-private and
inside the window. -/
theorem c2_member_aggregation_qualifying_only_witness :
    (WeightEntryRow.is_private ⟨1, 145, -5, false, 20⟩ = false ∧
        (10 : Int) ≤ WeightEntryRow.created_at ⟨1, 145, -5, false, 20⟩) ∧
      MemberProgress.total_entries
          ⟨1, "A", none, [⟨1, 145, -5, false, 20⟩], -5, 1, -5, 0⟩ = 1 := by
  have h := c2_member_aggregation_qualifying_only (some 10) 10
    [⟨1, none, "A"⟩]
    [⟨1, 150, 0, true, 20⟩, ⟨1, 150, 0, false, 5⟩, ⟨1, 145, -5, false, 20⟩]
    ⟨1, "A", none, [⟨1, 145, -5, false, 20⟩], -5, 1, -5, 0⟩
    ⟨1, 145, -5, false, 20⟩
    (by
      unfold memberProgressData
      rw [List.mem_insertionSort]
      norm_num [memberProgressOf, fetchedEntries, qualifiesB, latestChange,
        bestChange, daysActive, List.insertionSort, List.orderedInsert])
    (by simp)
  exact ⟨⟨h.1.1, h.1.2 10 rfl⟩, h.2.1⟩

/-! ## Claim C7 -/

/-- C7: for a team with no members the Team Progress Aggregator reports
all-zero statistics (not a division by zero), and for a nonempty team
`average_change` is the arithmetic mean of the members' `latest_change`
values. -/
theorem c7_team_average_change (t : TeamRow) (pd : List MemberProgress) :
    (pd.filter (fun m => m.team_id == some t.id) = [] →
      (teamProgressOf t pd).average_change = 0 ∧
        (teamProgressOf t pd).total_entries = 0 ∧
        (teamProgressOf t pd).best_change = 0 ∧
        (teamProgressOf t pd).member_count = 0) ∧
      (pd.filter (fun m => m.team_id == some t.id) ≠ [] →
        (teamProgressOf t pd).average_change =
          ((pd.filter (fun m => m.team_id == some t.id)).map
              (·.latest_change)).sum /
            ((pd.filter (fun m => m.team_id == some t.id)).length : ℚ)) := by
  constructor
  · intro h
    simp [teamProgressOf, h]
  · intro h
    rcases hx : pd.filter (fun m => m.team_id == some t.id) with _ | ⟨x, xs⟩
    · exact absurd hx h
    · simp [teamProgressOf, hx]

/-- C7 witness: an empty team reports all-zero stats; a two-member team
with `latest_change` values 2 and −4 reports `average_change = -1`. -/
theorem c7_team_average_change_witness :
    (teamProgressOf ⟨1, "T", "red"⟩ []).average_change = 0 ∧
      (teamProgressOf ⟨1, "T", "red"⟩
          [⟨7, "A", some 1, [], 2, 0, 0, 0⟩,
           ⟨8, "B", some 1, [], -4, 0, 0, 0⟩]).average_change = -1 := by
  constructor
  · exact ((c7_team_average_change ⟨1, "T", "red"⟩ []).1 rfl).1
  · have h := (c7_team_average_change ⟨1, "T", "red"⟩
      [⟨7, "A", some 1, [], 2, 0, 0, 0⟩,
       ⟨8, "B", some 1, [], -4, 0, 0, 0⟩]).2 (by simp)
    rw [h]
    norm_num [List.filter]

/-! ## Claim C8 -/

/-- C8 counterexample: the Team Progress Aggregator's output for a team
contains the full per-member breakdown regardless of who the caller is —
here the output for team 1 lists member 7 even though user 99 is not on
the team (the aggregator takes no caller at all, so its output shape
cannot enforce the restriction). -/
theorem c8_counterexample :
    (teamProgressOf ⟨1, "Red", "red"⟩
        [⟨7, "U", some 1, [], 0, 0, 0, 0⟩]).members =
        [⟨7, "U", some 1, [], 0, 0, 0, 0⟩] ∧
      ¬(99 ∈ ((teamProgressOf ⟨1, "Red", "red"⟩
          [⟨7, "U", some 1, [], 0, 0, 0, 0⟩]).members.map (·.user_id))) := by
  decide

/-- C8 (amended): the aggregator's output carries the per-member breakdown
for every team, independent of the caller; callers outside a team are kept
from seeing it only by the downstream render-time check `canViewMembers`,
which is false exactly when the caller is not among the team's members and
the caller's own team id differs from the team's. -/
theorem c8_member_breakdown_visibility (t : TeamRow)
    (pd : List MemberProgress) (callerId : Nat) (userTeamId : Option Nat) :
    (teamProgressOf t pd).members =
        pd.filter (fun m => m.team_id == some t.id) ∧
      (canViewMembers (teamProgressOf t pd) callerId userTeamId = false ↔
        (∀ m ∈ (teamProgressOf t pd).members, m.user_id ≠ callerId) ∧
          userTeamId ≠ some t.id) := by
  constructor
  · rcases hx : pd.filter (fun m => m.team_id == some t.id) with _ | ⟨x, xs⟩ <;>
      simp [teamProgressOf, hx]
  · have hid : (teamProgressOf t pd).team_id = t.id := by
      rcases hx : pd.filter (fun m => m.team_id == some t.id) with _ | ⟨x, xs⟩ <;>
        simp [teamProgressOf, hx]
    simp [canViewMembers, List.any_eq_false, beq_iff_eq, hid]

/-- C8 witness: with one member (user 7) on team 1, caller 99 on no team
fails the `canViewMembers` check while the aggregate output still carries
the breakdown. -/
theorem c8_member_breakdown_visibility_witness :
    (teamProgressOf ⟨1, "Red", "red"⟩
        [⟨7, "U", some 1, [], 0, 0, 0, 0⟩]).members =
        [⟨7, "U", some 1, [], 0, 0, 0, 0⟩].filter
          (fun m => m.team_id == some 1) ∧
      canViewMembers (teamProgressOf ⟨1, "Red", "red"⟩
          [⟨7, "U", some 1, [], 0, 0, 0, 0⟩]) 99 none = false := by
  refine ⟨(c8_member_breakdown_visibility ⟨1, "Red", "red"⟩
    [⟨7, "U", some 1, [], 0, 0, 0, 0⟩] 99 none).1, ?_⟩
  exact (c8_member_breakdown_visibility ⟨1, "Red", "red"⟩
    [⟨7, "U", some 1, [], 0, 0, 0, 0⟩] 99 none).2.mpr ⟨by decide, by decide⟩

/-! ## Claim C6 -/

/-- C6: when a group's cached `total_weight_lost` is already present,
running the settlement block of `fetchGroupProgress` again leaves the
stored total unchanged and performs no write — the re-run is read-only
(the recomputation still happens but is never persisted). -/
theorem c6_settlement_write_once (g : GroupRow) (now : Int) (st : Store)
    (t : ℚ) (h : g.total_weight_lost = some t) :
    settlementStep g now st = (some t, false) := by
  unfold settlementStep
  rcases hI : isGroupInactive g.end_date now <;> simp [h]

/-- C6 witness: an inactive group (end date 0, now 10) with cached total 5
keeps its stored total and triggers no write. -/
theorem c6_settlement_write_once_witness :
    settlementStep ⟨1, none, some 0, some 5, false⟩ 10 ⟨[], [], [], [], []⟩ =
      (some 5, false) :=
  c6_settlement_write_once ⟨1, none, some 0, some 5, false⟩ 10
    ⟨[], [], [], [], []⟩ 5 rfl

/-! ## Claim C10 -/

/-- C10 counterexample: when the `get_group_weight_loss` fetch fails,
`calculateGroupWeightLoss` catches the error and hands the caller the
success value `{ members: [], total_weight_lost: 0 }` — the failure is not
propagated (the return type carries no error at all). -/
theorem c10_counterexample :
    calculateGroupWeightLoss (Except.error "fetch failed") =
      { members := [], total_weight_lost := 0 } := rfl

/-- C10 (amended): on any external-store fetch failure the settlement
aggregation swallows the error and returns the fabricated empty result
`{ members: [], total_weight_lost: 0 }` to the caller instead of
propagating it; it performs no internal retry and no partial write (the
call is a single pure read). A null payload yields the same empty default,
and a successful payload is returned unchanged. -/
theorem c10_fetch_failure_swallowed (e : String) (r : GroupWeightLossResult) :
    calculateGroupWeightLoss (Except.error e) =
        { members := [], total_weight_lost := 0 } ∧
      calculateGroupWeightLoss (Except.ok none) =
        { members := [], total_weight_lost := 0 } ∧
      calculateGroupWeightLoss (Except.ok (some r)) = r :=
  ⟨rfl, rfl, rfl⟩

/-! ## Claim C3 -/

/-- Rewrite the privacy flag of every weight entry in the store, leaving
all other data untouched. -/
def mapPrivacy (f : WeightEntryRow → Bool) (st : Store) : Store :=
  { st with weight_entries :=
      st.weight_entries.map (fun e => { e with is_private := f e }) }

theorem firstEntry_foldl_map (g : WeightEntryRow → WeightEntryRow)
    (hg : ∀ e, (g e).created_at = e.created_at) :
    ∀ (l : List WeightEntryRow) (acc : Option WeightEntryRow),
      List.foldl
        (fun acc e =>
          match acc with
          | none => some e
          | some a => if e.created_at < a.created_at then some e else acc)
        (acc.map g) (l.map g) =
      (List.foldl
        (fun acc e =>
          match acc with
          | none => some e
          | some a => if e.created_at < a.created_at then some e else acc)
        acc l).map g := by
  intro l
  induction l with
  | nil => intro acc; rfl
  | cons e l ih =>
    intro acc
    rw [List.map_cons, List.foldl_cons, List.foldl_cons]
    cases acc with
    | none => exact ih (some e)
    | some a =>
      dsimp only [Option.map_some']
      rw [hg e, hg a]
      by_cases hlt : e.created_at < a.created_at
      · rw [if_pos hlt, if_pos hlt]
        exact ih (some e)
      · rw [if_neg hlt, if_neg hlt]
        exact ih (some a)

theorem lastEntry_foldl_map (g : WeightEntryRow → WeightEntryRow)
    (hg : ∀ e, (g e).created_at = e.created_at) :
    ∀ (l : List WeightEntryRow) (acc : Option WeightEntryRow),
      List.foldl
        (fun acc e =>
          match acc with
          | none => some e
          | some a => if a.created_at < e.created_at then some e else acc)
        (acc.map g) (l.map g) =
      (List.foldl
        (fun acc e =>
          match acc with
          | none => some e
          | some a => if a.created_at < e.created_at then some e else acc)
        acc l).map g := by
  intro l
  induction l with
  | nil => intro acc; rfl
  | cons e l ih =>
    intro acc
    rw [List.map_cons, List.foldl_cons, List.foldl_cons]
    cases acc with
    | none => exact ih (some e)
    | some a =>
      dsimp only [Option.map_some']
      rw [hg e, hg a]
      by_cases hlt : a.created_at < e.created_at
      · rw [if_pos hlt, if_pos hlt]
        exact ih (some e)
      · rw [if_neg hlt, if_neg hlt]
        exact ih (some a)

theorem firstEntry_map (g : WeightEntryRow → WeightEntryRow)
    (hg : ∀ e, (g e).created_at = e.created_at) (l : List WeightEntryRow) :
    firstEntry (l.map g) = (firstEntry l).map g :=
  firstEntry_foldl_map g hg l none

theorem lastEntry_map (g : WeightEntryRow → WeightEntryRow)
    (hg : ∀ e, (g e).created_at = e.created_at) (l : List WeightEntryRow) :
    lastEntry (l.map g) = (lastEntry l).map g :=
  lastEntry_foldl_map g hg l none

theorem userEntries_mapPrivacy (f : WeightEntryRow → Bool) (st : Store)
    (uid : Nat) :
    userEntries (mapPrivacy f st) uid =
      (userEntries st uid).map (fun e => { e with is_private := f e }) := by
  unfold userEntries mapPrivacy
  rw [List.filter_map]
  rfl

theorem detailFor_mapPrivacy (f : WeightEntryRow → Bool) (st : Store) :
    detailFor (mapPrivacy f st) = detailFor st := by
  funext uid
  unfold detailFor
  rw [userEntries_mapPrivacy,
    firstEntry_map (fun e => { e with is_private := f e }) (fun _ => rfl),
    lastEntry_map (fun e => { e with is_private := f e }) (fun _ => rfl)]
  have hp : findProfile (mapPrivacy f st) uid = findProfile st uid := rfl
  rw [hp]
  cases firstEntry (userEntries st uid) <;>
    cases lastEntry (userEntries st uid) <;>
      cases findProfile st uid <;> rfl

theorem weightLossDetails_mapPrivacy (f : WeightEntryRow → Bool) (st : Store)
    (gid : Nat) :
    weightLossDetails (mapPrivacy f st) gid = weightLossDetails st gid := by
  unfold weightLossDetails
  have h1 : groupUserIds (mapPrivacy f st) gid = groupUserIds st gid := rfl
  rw [h1, detailFor_mapPrivacy]

/-- C3: the settlement query applies no privacy or date-window filter —
its result is unchanged when the privacy flags of all weight entries are
rewritten arbitrarily, and it does not read the groups table at all (in
particular not the group's start/end dates), so private entries and
entries outside the group window participate in the first/last selection
exactly like any other entry. -/
theorem c3_settlement_no_privacy_or_window_filter (st : Store) (gid : Nat)
    (f : WeightEntryRow → Bool) (gs : List GroupRow) :
    get_group_weight_loss (mapPrivacy f st) gid =
        get_group_weight_loss st gid ∧
      get_group_weight_loss { st with groups := gs } gid =
        get_group_weight_loss st gid := by
  constructor
  · unfold get_group_weight_loss
    rw [weightLossDetails_mapPrivacy]
  · rfl

/-- C3 witness: a member's only earlier entry is private and predates the
group's start date, yet it supplies the settlement `first_weight` (200),
and marking every entry private does not change the result. -/
theorem c3_settlement_no_privacy_or_window_filter_witness :
    get_group_weight_loss
        (mapPrivacy (fun _ => true)
          ⟨[⟨1, "a@x", "A"⟩], [⟨1, 1, none⟩],
            [⟨1, 200, 0, true, 50⟩, ⟨1, 190, -5, false, 150⟩], [],
            [⟨1, some 100, some 200, none, false⟩]⟩) 1 =
      get_group_weight_loss
        ⟨[⟨1, "a@x", "A"⟩], [⟨1, 1, none⟩],
          [⟨1, 200, 0, true, 50⟩, ⟨1, 190, -5, false, 150⟩], [],
          [⟨1, some 100, some 200, none, false⟩]⟩ 1 ∧
      ((get_group_weight_loss
          ⟨[⟨1, "a@x", "A"⟩], [⟨1, 1, none⟩],
            [⟨1, 200, 0, true, 50⟩, ⟨1, 190, -5, false, 150⟩], [],
            [⟨1, some 100, some 200, none, false⟩]⟩ 1).members.map
        (·.first_weight)) = [200] := by
  constructor
  · exact (c3_settlement_no_privacy_or_window_filter
      ⟨[⟨1, "a@x", "A"⟩], [⟨1, 1, none⟩],
        [⟨1, 200, 0, true, 50⟩, ⟨1, 190, -5, false, 150⟩], [],
        [⟨1, some 100, some 200, none, false⟩]⟩ 1 (fun _ => true) []).1
  · norm_num [get_group_weight_loss, weightLossDetails, groupUserIds,
      userEntries, findProfile, firstEntry, lastEntry, round2,
      List.insertionSort, List.orderedInsert, List.filter, List.filterMap]

/-! ## Claim C4 -/

/-- C4: every member listed in the settlement result stems from a group
member whose first-recorded weight strictly exceeds the last-recorded one
(so anyone with first ≤ last never appears), carries
`weight_loss = round2(first - last)` and
`weight_loss_percentage = round2((first - last) / first * 100)`, and the
list is sorted descending by `weight_loss`. -/
theorem c4_settlement_list (st : Store) (gid : Nat) :
    (∀ d ∈ (get_group_weight_loss st gid).members,
      ∃ uid fe le p,
        uid ∈ groupUserIds st gid ∧
          firstEntry (userEntries st uid) = some fe ∧
          lastEntry (userEntries st uid) = some le ∧
          findProfile st uid = some p ∧
          le.weight < fe.weight ∧
          d = { email := p.email
                display_name := p.display_name
                first_weight := fe.weight
                last_weight := le.weight
                weight_loss := round2 (fe.weight - le.weight)
                weight_loss_percentage :=
                  round2 ((fe.weight - le.weight) / fe.weight * 100) }) ∧
      List.Sorted (fun a b : WeightLossDetail => b.weight_loss ≤ a.weight_loss)
        (get_group_weight_loss st gid).members := by
  constructor
  · intro d hd
    have hm : d ∈ weightLossDetails st gid := by
      have hrepr : (get_group_weight_loss st gid).members =
          (weightLossDetails st gid).insertionSort
            (fun a b => b.weight_loss ≤ a.weight_loss) := rfl
      rw [hrepr, List.mem_insertionSort] at hd
      exact hd
    rw [weightLossDetails, List.mem_filterMap] at hm
    obtain ⟨uid, hu, hf⟩ := hm
    unfold detailFor at hf
    rcases h1 : firstEntry (userEntries st uid) with _ | fe <;> rw [h1] at hf
    · exact absurd hf (by simp)
    rcases h2 : lastEntry (userEntries st uid) with _ | le <;> rw [h2] at hf
    · exact absurd hf (by simp)
    rcases h3 : findProfile st uid with _ | p <;> rw [h3] at hf
    · exact absurd hf (by simp)
    dsimp only at hf
    split_ifs at hf with hlt
    exact ⟨uid, fe, le, p, hu, h1, h2, h3, hlt, (Option.some.inj hf).symm⟩
  · letI : IsTotal WeightLossDetail
        (fun a b => b.weight_loss ≤ a.weight_loss) := ⟨fun a b => le_total _ _⟩
    letI : IsTrans WeightLossDetail
        (fun a b => b.weight_loss ≤ a.weight_loss) :=
      ⟨fun _ _ _ hab hbc => le_trans hbc hab⟩
    exact List.sorted_insertionSort _ _

/-- C4 witness: a concluded group with a member who lost 10 lbs
(200 → 190) and a member who gained (150 → 155); the loser's settlement
row exists and is characterized by the theorem, and the list is sorted. -/
theorem c4_settlement_list_witness :
    (∃ uid fe le p,
      uid ∈ groupUserIds
          ⟨[⟨1, "a@x", "A"⟩, ⟨2, "b@x", "B"⟩], [⟨1, 1, none⟩, ⟨1, 2, none⟩],
            [⟨1, 200, 0, false, 0⟩, ⟨1, 190, -5, false, 10⟩,
             ⟨2, 150, 0, false, 0⟩, ⟨2, 155, 3, false, 10⟩], [], []⟩ 1 ∧
        firstEntry (userEntries
          ⟨[⟨1, "a@x", "A"⟩, ⟨2, "b@x", "B"⟩], [⟨1, 1, none⟩, ⟨1, 2, none⟩],
            [⟨1, 200, 0, false, 0⟩, ⟨1, 190, -5, false, 10⟩,
             ⟨2, 150, 0, false, 0⟩, ⟨2, 155, 3, false, 10⟩], [], []⟩ uid) =
          some fe ∧
        lastEntry (userEntries
          ⟨[⟨1, "a@x", "A"⟩, ⟨2, "b@x", "B"⟩], [⟨1, 1, none⟩, ⟨1, 2, none⟩],
            [⟨1, 200, 0, false, 0⟩, ⟨1, 190, -5, false, 10⟩,
             ⟨2, 150, 0, false, 0⟩, ⟨2, 155, 3, false, 10⟩], [], []⟩ uid) =
          some le ∧
        findProfile
          ⟨[⟨1, "a@x", "A"⟩, ⟨2, "b@x", "B"⟩], [⟨1, 1, none⟩, ⟨1, 2, none⟩],
            [⟨1, 200, 0, false, 0⟩, ⟨1, 190, -5, false, 10⟩,
             ⟨2, 150, 0, false, 0⟩, ⟨2, 155, 3, false, 10⟩], [], []⟩ uid =
          some p ∧
        le.weight < fe.weight ∧
        ({ email := "a@x", display_name := "A", first_weight := 200,
           last_weight := 190, weight_loss := round2 (200 - 190),
           weight_loss_percentage := round2 ((200 - 190) / 200 * 100) } :
            WeightLossDetail) =
          { email := p.email
            display_name := p.display_name
            first_weight := fe.weight
            last_weight := le.weight
            weight_loss := round2 (fe.weight - le.weight)
            weight_loss_percentage :=
              round2 ((fe.weight - le.weight) / fe.weight * 100) }) ∧
      List.Sorted (fun a b : WeightLossDetail => b.weight_loss ≤ a.weight_loss)
        (get_group_weight_loss
          ⟨[⟨1, "a@x", "A"⟩, ⟨2, "b@x", "B"⟩], [⟨1, 1, none⟩, ⟨1, 2, none⟩],
            [⟨1, 200, 0, false, 0⟩, ⟨1, 190, -5, false, 10⟩,
             ⟨2, 150, 0, false, 0⟩, ⟨2, 155, 3, false, 10⟩], [], []⟩ 1).members := by
  have h := c4_settlement_list
    ⟨[⟨1, "a@x", "A"⟩, ⟨2, "b@x", "B"⟩], [⟨1, 1, none⟩, ⟨1, 2, none⟩],
      [⟨1, 200, 0, false, 0⟩, ⟨1, 190, -5, false, 10⟩,
       ⟨2, 150, 0, false, 0⟩, ⟨2, 155, 3, false, 10⟩], [], []⟩ 1
  refine ⟨?_, h.2⟩
  exact h.1
    { email := "a@x", display_name := "A", first_weight := 200,
      last_weight := 190, weight_loss := round2 (200 - 190),
      weight_loss_percentage := round2 ((200 - 190) / 200 * 100) }
    (by
      norm_num [get_group_weight_loss, weightLossDetails, detailFor,
        groupUserIds, userEntries, findProfile, firstEntry, lastEntry,
        List.insertionSort, List.orderedInsert, List.filter, List.filterMap])

/-! ## Claim C5 -/

/-- C5: the settlement's `total_weight_lost` equals the sum of the listed
members' `weight_loss` values rounded to two decimal places, and is `0`
when no member qualifies. -/
theorem c5_total_weight_lost (st : Store) (gid : Nat) :
    (get_group_weight_loss st gid).total_weight_lost =
        round2 (((get_group_weight_loss st gid).members.map
          (·.weight_loss)).sum) ∧
      ((get_group_weight_loss st gid).members = [] →
        (get_group_weight_loss st gid).total_weight_lost = 0) := by
  have hsum : ((List.insertionSort
          (fun a b : WeightLossDetail => b.weight_loss ≤ a.weight_loss)
          (weightLossDetails st gid)).map (·.weight_loss)).sum =
      ((weightLossDetails st gid).map (·.weight_loss)).sum :=
    ((List.perm_insertionSort _ _).map _).sum_eq
  have hmem : (get_group_weight_loss st gid).members =
      List.insertionSort (fun a b => b.weight_loss ≤ a.weight_loss)
        (weightLossDetails st gid) := rfl
  have htot : (get_group_weight_loss st gid).total_weight_lost =
      (match weightLossDetails st gid with
       | [] => 0
       | _ => round2 (((weightLossDetails st gid).map
           (·.weight_loss)).sum)) := by
    rcases hd : weightLossDetails st gid with _ | ⟨x, xs⟩ <;>
      simp only [get_group_weight_loss, hd]
  constructor
  · rw [htot, hmem, hsum]
    rcases hd : weightLossDetails st gid with _ | ⟨x, xs⟩
    · norm_num [round2, Int.floor_eq_iff]
    · rfl
  · intro h
    have hd : weightLossDetails st gid = [] := by
      have hperm := List.perm_insertionSort
        (fun a b : WeightLossDetail => b.weight_loss ≤ a.weight_loss)
        (weightLossDetails st gid)
      rw [hmem] at h
      rw [h] at hperm
      exact (List.Perm.nil_eq hperm).symm
    rw [htot, hd]

/-- C5 witness: with no qualifying member the cached total is `0`; with the
two-member store (one loser, one gainer) the total equals the rounded sum
of the listed losses. -/
theorem c5_total_weight_lost_witness :
    (get_group_weight_loss ⟨[], [], [], [], []⟩ 1).total_weight_lost = 0 ∧
      (get_group_weight_loss
          ⟨[⟨1, "a@x", "A"⟩, ⟨2, "b@x", "B"⟩], [⟨1, 1, none⟩, ⟨1, 2, none⟩],
            [⟨1, 200, 0, false, 0⟩, ⟨1, 190, -5, false, 10⟩,
             ⟨2, 150, 0, false, 0⟩, ⟨2, 155, 3, false, 10⟩], [],
            []⟩ 1).total_weight_lost =
        round2 (((get_group_weight_loss
            ⟨[⟨1, "a@x", "A"⟩, ⟨2, "b@x", "B"⟩], [⟨1, 1, none⟩, ⟨1, 2, none⟩],
              [⟨1, 200, 0, false, 0⟩, ⟨1, 190, -5, false, 10⟩,
               ⟨2, 150, 0, false, 0⟩, ⟨2, 155, 3, false, 10⟩], [],
              []⟩ 1).members.map (·.weight_loss)).sum) :=
  ⟨(c5_total_weight_lost ⟨[], [], [], [], []⟩ 1).2 rfl,
    (c5_total_weight_lost
      ⟨[⟨1, "a@x", "A"⟩, ⟨2, "b@x", "B"⟩], [⟨1, 1, none⟩, ⟨1, 2, none⟩],
        [⟨1, 200, 0, false, 0⟩, ⟨1, 190, -5, false, 10⟩,
         ⟨2, 150, 0, false, 0⟩, ⟨2, 155, 3, false, 10⟩], [], []⟩ 1).1⟩

/-! ## Claim C9 -/

theorem lastReminderSent_eq_mostRecent (st : Store) (uid gid : Nat)
    (htype : ∀ r ∈ st.reminder_logs, r.reminder_type = "weight_logging") :
    lastReminderSent st uid gid = mostRecentReminderLog st uid gid := by
  unfold lastReminderSent mostRecentReminderLog
  have h : ∀ r ∈ st.reminder_logs,
      (r.reminder_type == "weight_logging" && r.user_id == uid &&
          r.group_id == gid) =
        (r.user_id == uid && r.group_id == gid) := by
    intro r hr
    rw [htype r hr]
    simp
  rw [List.filter_congr h]

/-- C9: for a (user, group) membership pair (with existing profile and
group rows) of an active group — current time within the group's
start/end bounds, each vacuously when unset — and under the invariant that
all reminder logs are of type `weight_logging` (the only type the system
writes), `get_users_needing_reminders` selects the pair exactly when the
user's most recent weight entry is absent or older than 5 days and the
pair's most recent reminder log is absent or older than 4 days. -/
theorem c9_reminder_eligibility (now : Int) (st : Store) (uid gid : Nat)
    (g : GroupRow)
    (hmem : (uid, gid) ∈ st.group_members.map (fun gm => (gm.user_id, gm.group_id)))
    (hprof : (findProfile st uid).isSome = true)
    (hg : findGroup st gid = some g)
    (hstart : ∀ s, g.start_date = some s → s ≤ now)
    (hend : ∀ e, g.end_date = some e → now ≤ e)
    (htype : ∀ r ∈ st.reminder_logs, r.reminder_type = "weight_logging") :
    (uid, gid) ∈ get_users_needing_reminders now st ↔
      ((∀ d, lastEntryDate st uid = some d → d < now - fiveDays) ∧
        (∀ d, mostRecentReminderLog st uid gid = some d → d < now - fourDays)) := by
  unfold get_users_needing_reminders
  rw [List.mem_filter]
  have hdedup : (uid, gid) ∈
      (st.group_members.map (fun gm => (gm.user_id, gm.group_id))).dedup :=
    List.mem_dedup.2 hmem
  simp only [hdedup, true_and]
  unfold needsReminder
  rw [hg]
  dsimp only
  have hC : (match g.start_date with
      | none => true
      | some s => decide (s ≤ now)) = true := by
    rcases hs : g.start_date with _ | s
    · rfl
    · simpa using hstart s hs
  have hD : (match g.end_date with
      | none => true
      | some e => decide (now ≤ e)) = true := by
    rcases hegd : g.end_date with _ | e
    · rfl
    · simpa using hend e hegd
  rw [hC, hD, hprof, lastReminderSent_eq_mostRecent st uid gid htype]
  simp only [Option.isSome_some, Bool.true_and, Bool.and_true]
  rw [Bool.and_eq_true]
  constructor
  · rintro ⟨hA, hB⟩
    constructor
    · intro d hd
      rw [hd] at hA
      simpa using hA
    · intro d hd
      rw [hd] at hB
      simpa using hB
  · rintro ⟨hA, hB⟩
    constructor
    · rcases hle : lastEntryDate st uid with _ | d
      · rfl
      · simpa using hA d hle
    · rcases hlr : mostRecentReminderLog st uid gid with _ | d
      · rfl
      · simpa using hB d hlr

/-- C9 witness (the spec's scenario): at `now` = day 10 (in seconds), a
member whose only weight entry is 6 days old and who was never reminded is
selected; the same member with a reminder sent 2 days ago is not. -/
theorem c9_reminder_eligibility_witness :
    (1, 1) ∈ get_users_needing_reminders (10 * 86400)
        ⟨[⟨1, "a@x", "A"⟩], [⟨1, 1, none⟩], [⟨1, 150, 0, false, 4 * 86400⟩],
          [], [⟨1, none, none, none, false⟩]⟩ ∧
      ¬((1, 1) ∈ get_users_needing_reminders (10 * 86400)
        ⟨[⟨1, "a@x", "A"⟩], [⟨1, 1, none⟩], [⟨1, 150, 0, false, 4 * 86400⟩],
          [⟨1, 1, "weight_logging", 8 * 86400⟩],
          [⟨1, none, none, none, false⟩]⟩) := by
  constructor
  · refine (c9_reminder_eligibility (10 * 86400)
      ⟨[⟨1, "a@x", "A"⟩], [⟨1, 1, none⟩], [⟨1, 150, 0, false, 4 * 86400⟩],
        [], [⟨1, none, none, none, false⟩]⟩ 1 1 ⟨1, none, none, none, false⟩
      (by simp) rfl rfl (fun s hs => by cases hs) (fun e he => by cases he)
      (by simp)).mpr ⟨?_, ?_⟩
    · intro d hd
      have : lastEntryDate
          ⟨[⟨1, "a@x", "A"⟩], [⟨1, 1, none⟩], [⟨1, 150, 0, false, 4 * 86400⟩],
            [], [⟨1, none, none, none, false⟩]⟩ 1 = some (4 * 86400) := rfl
      rw [this] at hd
      cases hd
      norm_num [fiveDays]
    · intro d hd
      have : mostRecentReminderLog
          ⟨[⟨1, "a@x", "A"⟩], [⟨1, 1, none⟩], [⟨1, 150, 0, false, 4 * 86400⟩],
            [], [⟨1, none, none, none, false⟩]⟩ 1 1 = none := rfl
      rw [this] at hd
      cases hd
  · intro hmem'
    have h := ((c9_reminder_eligibility (10 * 86400)
      ⟨[⟨1, "a@x", "A"⟩], [⟨1, 1, none⟩], [⟨1, 150, 0, false, 4 * 86400⟩],
        [⟨1, 1, "weight_logging", 8 * 86400⟩],
        [⟨1, none, none, none, false⟩]⟩ 1 1 ⟨1, none, none, none, false⟩
      (by simp) rfl rfl (fun s hs => by cases hs) (fun e he => by cases he)
      (by simp)).mp hmem').2 (8 * 86400)
    have hlr : mostRecentReminderLog
        ⟨[⟨1, "a@x", "A"⟩], [⟨1, 1, none⟩], [⟨1, 150, 0, false, 4 * 86400⟩],
          [⟨1, 1, "weight_logging", 8 * 86400⟩],
          [⟨1, none, none, none, false⟩]⟩ 1 1 = some (8 * 86400) := rfl
    have := h hlr
    norm_num [fourDays] at this

end WeightLoss
